import Mathlib

/-!
Verification development for the `cursor_rules_commands` repository.

The reproducible core of the repository (file `cursor_docs_content.py`) is
shallowly embedded here:

* Python `str` is embedded as `List Char` (`PyStr`); the Python string
  operations used by the source (`startswith`, `find`, slicing, `strip`,
  `split`, `join`, f-string/`format` concatenation) are embedded as
  executable functions on `List Char`.
* `parse_frontmatter`, `get_file_annotations`,
  `generate_template_based_structure` and `generate_starter_kit_zip` are
  translated from the source.
* `yaml.safe_load` is an external library (PyYAML), not part of the
  sources of the repository; it is modelled (`yamlSafeLoad`) on the restricted
  header language the specification defines.  `zipfile` is likewise external;
  its entry records (name, timestamp, data) are modelled explicitly.
* Fallible Python code (the `TypeError` reachable in
  `get_file_annotations`) is embedded with `Except`.
-/

/-! ## Python strings -/

abbrev PyStr := List Char

def pystr (s : String) : PyStr := s.data

/-- Python `str.isspace` characters relevant to `str.strip()`. -/
def isPySpace (c : Char) : Bool :=
  c = ' ' || c = '\t' || c = '\n' || c = '\r' || c = '\x0b' || c = '\x0c'

/-- Leading-whitespace removal, the left half of Python `str.strip()`. -/
def stripLeft : PyStr → PyStr
  | [] => []
  | c :: t => if isPySpace c then stripLeft t else c :: t

/-- Trailing-whitespace removal, the right half of Python `str.strip()`. -/
def stripRight (s : PyStr) : PyStr := (stripLeft s.reverse).reverse

/-- Python `str.strip()` with no argument. -/
def pyStrip (s : PyStr) : PyStr := stripRight (stripLeft s)

/-- Python `s.startswith(needle)`. -/
def startsWithPy : PyStr → PyStr → Bool
  | _, [] => true
  | [], _ :: _ => false
  | c :: t, d :: u => c = d && startsWithPy t u

/-- Index of the first occurrence of `needle` in `hay`, if any. -/
def firstOcc (needle : PyStr) : PyStr → Option Nat
  | [] => if startsWithPy [] needle then some 0 else none
  | c :: t =>
    if startsWithPy (c :: t) needle then some 0
    else (firstOcc needle t).map (· + 1)

/-- Python `hay.find(needle, start)`, with `none` standing for `-1`. -/
def findFrom (hay needle : PyStr) (start : Nat) : Option Nat :=
  (firstOcc needle (hay.drop start)).map (· + start)

/-- Python slice `s[a:b]` for `0 ≤ a ≤ b`. -/
def pySlice (s : PyStr) (a b : Nat) : PyStr := (s.drop a).take (b - a)

/-- Python slice `s[a:]`. -/
def pyDrop (s : PyStr) (a : Nat) : PyStr := s.drop a

/-- Python `s.split(sep)` specialised to a single-character separator,
as used by line splitting. -/
def splitLines : PyStr → List PyStr
  | [] => [[]]
  | c :: t =>
    if c = '\n' then [] :: splitLines t
    else
      match splitLines t with
      | [] => [[c]]
      | l :: ls => (c :: l) :: ls

/-- Python `sep.join(parts)`. -/
def joinSep (sep : PyStr) : List PyStr → PyStr
  | [] => []
  | [l] => l
  | l :: m :: ls => l ++ sep ++ joinSep sep (m :: ls)

/-! ## The restricted YAML value model

`yaml.safe_load` is PyYAML, an external dependency that is not part of this
sources of the repository.  `Modelled from the spec:` the specification (§4.1)
restricts the header language to "a restricted YAML-like mapping: scalar
strings, booleans, and sequences of strings as values"; on top of that the
code-deciding inputs of the claims need plain top-level scalars (strings and
integers).  The model below parses exactly that restricted language; PyYAML
inputs outside it (floats, dates, nested structures, flow collections,
indentation, anchors, …) are mapped to a parse error.  On every concrete
input appearing in a theorem below, the model agrees with PyYAML. -/

/-- A value inside a YAML mapping (restricted model). -/
inductive YVal where
  | ystr (s : PyStr)
  | ybool (b : Bool)
  | yint (n : Int)
  | ylist (xs : List PyStr)
deriving DecidableEq, Repr

/-- A top-level YAML document (restricted model): a mapping or a scalar. -/
inductive Yaml where
  | yscalar (v : YVal)
  | ymap (kvs : List (PyStr × YVal))
deriving DecidableEq, Repr

/-- Characters permitted inside a scalar token of the restricted model. -/
def okChar (c : Char) : Bool :=
  c.isAlphanum || c = '_' || c = '-' || c = '.' || c = '/' || c = '*' ||
  c = ' ' || c = '\x22'

/-- Token shape of a scalar: nonempty, allowed characters, no outer
whitespace, not a block-sequence introducer. -/
def scalarShape (v : PyStr) : Bool :=
  match v with
  | [] => false
  | c :: _ =>
    v.all okChar && !isPySpace c && !isPySpace ((v.getLast?).getD 'x') &&
    !startsWithPy v (pystr "- ")

/-- YAML 1.1 boolean-true tokens recognised by the PyYAML resolver. -/
def boolTrueTok (v : PyStr) : Bool :=
  v = pystr "true" || v = pystr "True" || v = pystr "TRUE" ||
  v = pystr "yes" || v = pystr "Yes" || v = pystr "YES" ||
  v = pystr "on" || v = pystr "On" || v = pystr "ON"

/-- YAML 1.1 boolean-false tokens recognised by the PyYAML resolver. -/
def boolFalseTok (v : PyStr) : Bool :=
  v = pystr "false" || v = pystr "False" || v = pystr "FALSE" ||
  v = pystr "no" || v = pystr "No" || v = pystr "NO" ||
  v = pystr "off" || v = pystr "Off" || v = pystr "OFF"

/-- YAML null tokens. -/
def nullTok (v : PyStr) : Bool :=
  v = pystr "null" || v = pystr "Null" || v = pystr "NULL" || v = pystr "~"

def isDigits (v : PyStr) : Bool := !v.isEmpty && v.all Char.isDigit

/-- A decimal integer token, optionally negative. -/
def isIntTok (v : PyStr) : Bool :=
  isDigits v ||
  (match v with
   | '-' :: t => isDigits t
   | _ => false)

def natOfDigitsAux (acc : Nat) : PyStr → Nat
  | [] => acc
  | c :: t => natOfDigitsAux (acc * 10 + (c.toNat - 48)) t

def intOfTok (v : PyStr) : Int :=
  match v with
  | '-' :: t => - (natOfDigitsAux 0 t : Int)
  | _ => (natOfDigitsAux 0 v : Int)

/-- Scalar resolution of the restricted YAML model.  `none` is a parse
error (or a value outside the model, e.g. YAML null inside a mapping). -/
def parseScalar (v : PyStr) : Option YVal :=
  if v = pystr "[]" then some (.ylist [])
  else if scalarShape v = false then none
  else if boolTrueTok v then some (.ybool true)
  else if boolFalseTok v then some (.ybool false)
  else if nullTok v then none
  else if isIntTok v then some (.yint (intOfTok v))
  else
    match v with
    | '\x22' :: t =>
      if !t.isEmpty && t.getLast? = some '\x22' &&
         (t.dropLast).all (fun c => okChar c && c ≠ '\x22') then
        some (.ystr t.dropLast)
      else none
    | c :: _ =>
      if (c.isAlpha || c = '_' || c = '/' || c = '*') &&
         v.all (fun d => d ≠ '\x22') then
        some (.ystr v)
      else none
    | [] => none

/-- Characters permitted in a mapping key of the restricted model. -/
def keyChar (c : Char) : Bool := c.isAlphanum || c = '_' || c = '-'

def keyOk (k : PyStr) : Bool :=
  !k.isEmpty && k.all keyChar && !boolTrueTok k && !boolFalseTok k &&
  !nullTok k && !isIntTok k

/-- Split a line at its first colon. -/
def splitAtColon : PyStr → Option (PyStr × PyStr)
  | [] => none
  | c :: t =>
    if c = ':' then some ([], t)
    else (splitAtColon t).map (fun p => (c :: p.1, p.2))

/-- Parse one `key: value` line of a restricted block mapping. -/
def parseMapLine (line : PyStr) : Option (PyStr × YVal) :=
  match splitAtColon line with
  | none => none
  | some (k, rest) =>
    if keyOk k then
      match rest with
      | ' ' :: w =>
        match parseScalar w with
        | some y => some (k, y)
        | none => none
      | _ => none
    else none

def mapLines : List PyStr → Option (List (PyStr × YVal))
  | [] => some []
  | l :: ls =>
    match parseMapLine l, mapLines ls with
    | some p, some ps => some (p :: ps)
    | _, _ => none

def noDupKeys : List (PyStr × YVal) → Bool
  | [] => true
  | (k, _) :: t => !t.any (fun q => q.1 = k) && noDupKeys t

/-- Modelled from the spec: `yaml.safe_load` (PyYAML, external to the
repository) on the restricted header language of spec §4.1.  `.ok none`
is Python `None` (empty or null document); `.error ()` is `YAMLError`. -/
def yamlSafeLoad (s : PyStr) : Except Unit (Option Yaml) :=
  if s = [] then .ok none
  else if nullTok s then .ok none
  else
    let lines := splitLines s
    match mapLines lines with
    | some kvs => if noDupKeys kvs then .ok (some (.ymap kvs)) else .error ()
    | none =>
      match lines with
      | [l] =>
        match parseScalar l with
        | some v => .ok (some (.yscalar v))
        | none => .error ()
      | _ => .error ()

/-! ## parse_frontmatter (cursor_docs_content.py, lines 246–274) -/

def tripleDash : PyStr := ['-', '-', '-']

/-- Translation of `parse_frontmatter`: returns `(frontmatter, body)` where
an absent/None frontmatter is `none`. -/
def parse_frontmatter (content : PyStr) : Option Yaml × PyStr :=
  if startsWithPy content tripleDash = false then (none, content)
  else
    match findFrom content tripleDash 3 with
    | none => (none, content)
    | some e =>
      let fs := pyStrip (pySlice content 3 e)
      let body := pyStrip (pyDrop content (e + 3))
      match yamlSafeLoad fs with
      | .ok fm => (fm, body)
      | .error _ => (none, content)

/-! ## get_file_annotations (cursor_docs_content.py, lines 277–311) -/

/-- One annotation record: `{"field": …, "value": …, "explanation": …}`. -/
structure Annot where
  fieldName : PyStr
  value : YVal
  explanation : PyStr
deriving DecidableEq, Repr

def keyDescription : PyStr := pystr "description"
def keyGlobs : PyStr := pystr "globs"
def keyAlwaysApply : PyStr := pystr "alwaysApply"

def explDescription : PyStr :=
  pystr "Brief summary shown in Cursor\x27s UI when browsing rules"
def explGlobs : PyStr :=
  pystr "File patterns that trigger this rule (e.g., **/*.py matches all Python files)"
def explAlwaysApply : PyStr :=
  pystr "When true, rule is always active regardless of open files"

/-- Python truthiness of a parsed frontmatter value (`if frontmatter:`). -/
def pyTruthy : Option Yaml → Bool
  | none => false
  | some (.yscalar (.ystr s)) => !s.isEmpty
  | some (.yscalar (.ybool b)) => b
  | some (.yscalar (.yint n)) => n ≠ 0
  | some (.yscalar (.ylist xs)) => !xs.isEmpty
  | some (.ymap kvs) => !kvs.isEmpty

/-- Python `key in frontmatter`: key lookup for a dict, substring test for a
str, membership for a list, and `TypeError` for non-container values. -/
def pyContains (key : PyStr) : Yaml → Except Unit Bool
  | .ymap kvs => .ok (kvs.any (fun q => q.1 = key))
  | .yscalar (.ystr s) => .ok (firstOcc key s).isSome
  | .yscalar (.ylist xs) => .ok (xs.any (fun x => x = key))
  | .yscalar (.ybool _) => .error ()
  | .yscalar (.yint _) => .error ()

/-- Python `frontmatter[key]`: dict item access; `TypeError`/`KeyError`
otherwise. -/
def pyGetItem (f : Yaml) (key : PyStr) : Except Unit YVal :=
  match f with
  | .ymap kvs =>
    match kvs.find? (fun q => q.1 = key) with
    | some q => .ok q.2
    | none => .error ()
  | .yscalar _ => .error ()

/-- Translation of `get_file_annotations`; the `Except` layer records the
`TypeError` that the Python `in`/indexing operations can raise on non-container
frontmatter values. -/
def get_file_annotations (filename content : PyStr) : Except Unit (List Annot) :=
  let fm := (parse_frontmatter content).1
  if pyTruthy fm then
    match fm with
    | none => .ok []
    | some f => do
      let hasDesc ← pyContains keyDescription f
      let a1 ← if hasDesc then do
          let v ← pyGetItem f keyDescription
          pure [Annot.mk keyDescription v explDescription]
        else pure ([] : List Annot)
      let hasGlobs ← pyContains keyGlobs f
      let a2 ← if hasGlobs then do
          let v ← pyGetItem f keyGlobs
          pure [Annot.mk keyGlobs v explGlobs]
        else pure ([] : List Annot)
      let hasAlways ← pyContains keyAlwaysApply f
      let a3 ← if hasAlways then do
          let v ← pyGetItem f keyAlwaysApply
          pure [Annot.mk keyAlwaysApply v explAlwaysApply]
        else pure ([] : List Annot)
      pure (a1 ++ a2 ++ a3)
  else .ok []

instance {α β : Type} [DecidableEq α] [DecidableEq β] :
    DecidableEq (Except α β) := fun x y =>
  match x, y with
  | .error a, .error b =>
    if h : a = b then isTrue (by rw [h]) else
      isFalse (by intro hh; injection hh; exact h (by assumption))
  | .error _, .ok _ => isFalse (by intro hh; injection hh)
  | .ok _, .error _ => isFalse (by intro hh; injection hh)
  | .ok a, .ok b =>
    if h : a = b then isTrue (by rw [h]) else
      isFalse (by intro hh; injection hh; exact h (by assumption))

/-! ## Header construction (for the round-trip property P1)

These definitions follow the words of the specification ("a valid header
block: opening three-dash marker line, YAML key/value content, closing
three-dash marker"): they build a raw document from header data and a body,
to be compared with what `parse_frontmatter` recovers. -/

/-- Render one mapping value back to its YAML text. -/
def renderVal : YVal → PyStr
  | .ystr s => s
  | .ybool true => pystr "true"
  | .ybool false => pystr "false"
  | .yint n => pystr (toString n)
  | .ylist xs => pystr "[" ++ joinSep (pystr ", ") xs ++ pystr "]"

/-- Render one `key: value` line. -/
def renderLine (p : PyStr × YVal) : PyStr := p.1 ++ ':' :: ' ' :: renderVal p.2

/-- Render the key/value content of a header block. -/
def renderHdr (kvs : List (PyStr × YVal)) : PyStr :=
  joinSep (pystr "\n") (kvs.map renderLine)

/-- Concatenate a valid header block and a body into a raw document. -/
def mkDoc (kvs : List (PyStr × YVal)) (body : PyStr) : PyStr :=
  pystr "---\n" ++ renderHdr kvs ++ pystr "\n---\n" ++ body

/-- A well-formed header pair: a well-formed key and a value whose YAML
rendering resolves back to itself. -/
def wfPair (p : PyStr × YVal) : Bool :=
  keyOk p.1 && (parseScalar (renderVal p.2) == some p.2)

/-- A well-formed header: nonempty, all pairs well formed, distinct keys. -/
def wfHdr (kvs : List (PyStr × YVal)) : Bool :=
  !kvs.isEmpty && kvs.all wfPair && noDupKeys kvs

/-- Whether a parsed frontmatter is a key/value mapping. -/
def headerIsMap : Option Yaml → Bool
  | some (.ymap _) => true
  | _ => false

/-! ## generate_template_based_structure (cursor_docs_content.py, 318–380) -/

/-- `PROJECT_STRUCTURE_TEMPLATE.format(...)`: the fixed template with its
eight holes substituted.  The literal chunks are exactly the text of
`PROJECT_STRUCTURE_TEMPLATE` between the holes. -/
def PROJECT_STRUCTURE_TEMPLATE_fill (description project_name overview
    directory_tree architecture technologies run_instructions env_vars :
    PyStr) : PyStr :=
  pystr "---\ndescription: " ++ description ++
  pystr "\nglobs: []\nalwaysApply: true\n---\n\n# Project Structure: " ++
  project_name ++
  pystr "\n\n## Overview\n\n" ++ overview ++
  pystr "\n\n## Directory Layout" ++ pystr "\n\n```\n" ++ directory_tree ++
  pystr "\n```\n\n## Architecture\n\n" ++ architecture ++
  pystr "\n\n## Key Technologies\n\n" ++ technologies ++
  pystr "\n\n## Running the Application\n\n" ++ run_instructions ++
  pystr "\n\n## Environment Variables\n\n" ++ env_vars ++ pystr "\n"

/-- Translation of `generate_template_based_structure`.  Python truthiness
of a list/str (`if tech_stack else`, `if main_files else`) is emptiness. -/
def generate_template_based_structure (project_name : PyStr)
    (tech_stack : List PyStr) (main_files architecture_notes : PyStr) :
    PyStr :=
  let tech_list :=
    if tech_stack = [] then pystr "- Not specified"
    else joinSep (pystr "\n")
      (tech_stack.map (fun tech => pystr "- **" ++ tech ++ pystr "**"))
  PROJECT_STRUCTURE_TEMPLATE_fill
    (pystr "Project structure and architecture overview for " ++ project_name)
    project_name
    (pystr "A project built with " ++
      (if tech_stack = [] then pystr "various technologies"
       else joinSep (pystr ", ") tech_stack) ++ pystr ".")
    (if main_files = [] then pystr "src/\n├── main.py\n└── utils.py"
     else main_files)
    (if architecture_notes = [] then pystr "Describe your architecture here."
     else architecture_notes)
    tech_list
    (pystr "```bash\n# Add your run instructions here\n```")
    (pystr "- Add your environment variables here")

/-! ## The starter-kit catalog (cursor_docs_content.py, 1534–1830)

The document contents below are transcribed verbatim from the static
string catalog of the source file. -/
/-- The five fixed rule documents of the starter kit (`STARTER_KIT_RULES`),
as an insertion-ordered association list. -/
def STARTER_KIT_RULES : List (PyStr × PyStr) :=
[
  (pystr "cursor-rules.md",
   pystr "---\ndescription: Guidelines for writing effective Cursor rules\nglobs: \n  - \".cursor/rules/*\"\nalwaysApply: false\n---\n\n# Cursor Rules Best Practices\n\n## Rule Structure\n\nEvery rule file must include:\n1. **YAML Frontmatter** - Metadata controlling when/how the rule applies\n2. **Markdown Content** - Clear, actionable instructions\n\n## Frontmatter Fields\n\n| Field | Type | Description |\n|-------|------|-------------|\n| `description` | string | Brief summary shown in Cursor UI |\n| `globs` | array | File patterns that trigger this rule |\n| `alwaysApply` | boolean | If true, always includes this rule |\n\n## Rule Activation Modes\n\nRules can be triggered through:\n- **Always**: `alwaysApply: true` for persistent application\n- **Glob Patterns**: Auto-apply when matching files are referenced\n- **Manual**: Using `@rule-name` in Cmd-K or chat\n- **Agent Decision**: AI determines relevance based on description\n\n## Best Practices\n\n- Keep rules focused on a single concern\n- Use specific globs to avoid noise (e.g., `src/**/*.ts` not `**/*`)\n- Write clear, actionable instructions\n- Keep content concise (50-150 lines recommended)\n- Include examples where helpful\n- Multiple small focused rules > one giant rule\n"),
  (pystr "project-structure.md",
   pystr "---\ndescription: Project structure and architecture overview\nglobs: []\nalwaysApply: true\n---\n\n# Project Structure\n\n## Overview\n\n[Brief description of what this project does - 2-3 sentences]\n\n## Directory Layout\n\n```\nproject-root/\n├── src/                    # Source code\n│   ├── components/         # UI components\n│   └── utils/              # Utility functions\n├── tests/                  # Test files\n├── docs/                   # Documentation\n└── .cursor/\n    ├── rules/              # AI context rules\n    └── commands/           # Slash commands\n```\n\n## Key Technologies\n\n- [Technology 1] - Purpose\n- [Technology 2] - Purpose\n- [Technology 3] - Purpose\n\n## Running the Application\n\n```bash\n# Install dependencies\n[package manager] install\n\n# Start development server\n[command to run]\n\n# Run tests\n[test command]\n```\n\n## Environment Variables\n\n| Variable | Description | Required |\n|----------|-------------|----------|\n| `VAR_NAME` | Description | Yes/No |\n"),
  (pystr "coding-standards.md",
   pystr "---\ndescription: Coding standards and conventions for this project\nglobs: []\nalwaysApply: true\n---\n\n# Coding Standards\n\n## Naming Conventions\n\n| Type | Convention | Example |\n|------|------------|---------|\n| Variables | camelCase | `userName`, `isActive` |\n| Functions | camelCase | `getUserById`, `calculateTotal` |\n| Classes | PascalCase | `UserService`, `DataManager` |\n| Constants | SCREAMING_SNAKE | `MAX_RETRIES`, `API_URL` |\n| Files | kebab-case | `user-service.ts`, `api-utils.py` |\n\n## Code Style\n\n- Use meaningful, descriptive names\n- Keep functions small and focused (single responsibility)\n- Prefer early returns for cleaner code\n- Use optional chaining and nullish coalescing where available\n- Destructure objects/arrays for cleaner access\n\n## Error Handling\n\n- Always handle errors explicitly\n- Use try/catch for async operations\n- Log errors with context (what operation failed, relevant IDs)\n- Return meaningful error messages to users\n- Never expose internal errors to end users\n\n## Comments\n\n- Write self-documenting code first\n- Comment the \"why\", not the \"what\"\n- Keep comments up-to-date with code changes\n- Use TODO/FIXME for tracking issues\n"),
  (pystr "git-conventions.md",
   pystr "---\ndescription: Git commit and branching conventions\nglobs:\n  - \".git/**\"\n  - \"*.md\"\nalwaysApply: false\n---\n\n# Git Conventions\n\n## Commit Message Format\n\n```\ntype(scope): subject\n\nbody (optional)\n\nfooter (optional)\n```\n\n## Commit Types\n\n| Type | Description |\n|------|-------------|\n| `feat` | New feature |\n| `fix` | Bug fix |\n| `docs` | Documentation changes |\n| `style` | Code style (formatting, semicolons) |\n| `refactor` | Code refactoring (no functional change) |\n| `test` | Adding or updating tests |\n| `chore` | Maintenance tasks |\n\n## Guidelines\n\n- Subject: imperative mood, lowercase, no period, <50 chars\n- Body: explain what and why (not how), wrap at 72 chars\n- Reference issues in footer: `Closes #123`\n\n## Branch Naming\n\n- `feature/description` - New features\n- `fix/description` - Bug fixes\n- `docs/description` - Documentation\n- `refactor/description` - Refactoring\n\n## Examples\n\n```\nfeat(auth): add OAuth2 login support\n\nImplement OAuth2 authentication with Google and GitHub providers.\nIncludes token refresh and secure storage.\n\nCloses #123\n```\n"),
  (pystr "rule-self-improvement.md",
   pystr "---\ndescription: Guidelines for continuously improving Cursor rules\nglobs:\n  - \".cursor/rules/*\"\nalwaysApply: false\n---\n\n# Rule Self-Improvement Guidelines\n\n## When to Add New Rules\n\n- A pattern is used in **3+ files** consistently\n- Common bugs could be prevented by standardization\n- Code reviews repeatedly mention the same feedback\n- New security or performance patterns emerge\n- New libraries/frameworks added to the project\n\n## When to Update Existing Rules\n\n- Better examples exist in the codebase\n- Additional edge cases are discovered\n- Implementation details have changed\n- Related rules have been updated\n- Outdated patterns need deprecation\n\n## Rule Quality Checklist\n\n- [ ] Rules are actionable and specific\n- [ ] Examples come from actual codebase\n- [ ] Patterns are consistently enforced\n- [ ] No outdated references\n- [ ] File size under 150 lines\n- [ ] Clear, concise language\n\n## Continuous Improvement\n\n- Monitor code review comments for patterns\n- Update rules after major refactors\n- Deprecate rules that no longer apply\n- Cross-reference related rules\n- Keep `alwaysApply` rules minimal\n")
]

/-- One record of the `GENERIC_COMMANDS` registry. -/
structure GenericCommand where
  key : PyStr
  displayName : PyStr
  description : PyStr
  content : PyStr
deriving DecidableEq, Repr

/-- The `GENERIC_COMMANDS` registry, in insertion order. -/
def GENERIC_COMMANDS : List GenericCommand :=
[
  GenericCommand.mk (pystr "code-review-checklist")
    (pystr "Code Review Checklist")
    (pystr "Comprehensive checklist for thorough code reviews")
    (pystr "# Code Review Checklist\n\n## Overview\nSystematic review to ensure code quality, security, and maintainability.\n\n## Review Steps\n\n### 1. Functionality\n- [ ] Code does what it\x27s supposed to do\n- [ ] Edge cases are handled appropriately\n- [ ] Error handling is comprehensive\n- [ ] No obvious bugs or logic errors\n\n### 2. Code Quality\n- [ ] Code is readable and well-structured\n- [ ] Functions are small and focused (single responsibility)\n- [ ] Variable and function names are descriptive\n- [ ] No unnecessary code duplication (DRY)\n- [ ] Follows project coding conventions\n\n### 3. Security\n- [ ] No obvious security vulnerabilities\n- [ ] Input validation is present where needed\n- [ ] Sensitive data is handled properly\n- [ ] No hardcoded secrets or credentials\n- [ ] SQL queries are parameterized (if applicable)\n\n### 4. Performance\n- [ ] No obvious performance issues\n- [ ] Database queries are efficient\n- [ ] No unnecessary work in loops\n- [ ] Appropriate caching where needed\n\n### 5. Testing\n- [ ] Adequate test coverage\n- [ ] Tests cover edge cases\n- [ ] Tests are readable and maintainable\n\n### 6. Documentation\n- [ ] Complex logic is commented\n- [ ] Public APIs are documented\n- [ ] README updated if needed\n\nPlease review the selected code against this checklist and provide specific feedback.\n"),
  GenericCommand.mk (pystr "write-tests")
    (pystr "Write Tests")
    (pystr "Generate comprehensive tests for selected code")
    (pystr "# Write Tests\n\n## Overview\nGenerate comprehensive tests for the selected code, following testing best practices.\n\n## Instructions\n\n1. **Analyze the code** to understand its purpose and behavior\n2. **Identify test cases**:\n   - Happy path (normal operation)\n   - Edge cases (boundary conditions)\n   - Error cases (invalid inputs, failures)\n   - Integration points (if applicable)\n\n3. **Write tests** that are:\n   - Descriptive (clear test names)\n   - Independent (no test dependencies)\n   - Repeatable (consistent results)\n   - Fast (quick execution)\n\n4. **Include**:\n   - Unit tests for individual functions\n   - Mock external dependencies\n   - Assertions with clear error messages\n   - Setup and teardown if needed\n\n## Output Format\nProvide complete, runnable test code with imports and any necessary setup.\n"),
  GenericCommand.mk (pystr "security-audit")
    (pystr "Security Audit")
    (pystr "Comprehensive security review of the codebase")
    (pystr "# Security Audit\n\n## Overview\nPerform a comprehensive security review to identify vulnerabilities.\n\n## Audit Checklist\n\n### 1. Authentication & Authorization\n- [ ] Authentication is properly implemented\n- [ ] Authorization checks on all protected routes\n- [ ] Session management is secure\n- [ ] Password policies are enforced\n\n### 2. Input Validation\n- [ ] All user inputs are validated\n- [ ] SQL injection prevention (parameterized queries)\n- [ ] XSS prevention (output encoding)\n- [ ] Path traversal prevention\n\n### 3. Sensitive Data\n- [ ] No hardcoded secrets or API keys\n- [ ] Sensitive data encrypted at rest\n- [ ] Secure transmission (HTTPS/TLS)\n- [ ] Proper logging (no sensitive data logged)\n\n### 4. Dependencies\n- [ ] No known vulnerabilities in dependencies\n- [ ] Dependencies are up to date\n- [ ] Minimal dependency footprint\n\n### 5. Error Handling\n- [ ] Errors don\x27t expose sensitive information\n- [ ] Proper error logging\n- [ ] Graceful failure handling\n\nPlease analyze the codebase for security issues and provide:\n1. List of vulnerabilities found (severity: Critical/High/Medium/Low)\n2. Specific code locations\n3. Recommended fixes\n"),
  GenericCommand.mk (pystr "create-pr")
    (pystr "Create PR Description")
    (pystr "Generate a well-structured pull request description")
    (pystr "# Create PR Description\n\n## Overview\nGenerate a comprehensive pull request description based on the changes made.\n\n## Instructions\n\nAnalyze the current changes (git diff) and create a PR description with:\n\n### PR Title\nA clear, concise title following the format: `type(scope): description`\n- Types: feat, fix, docs, style, refactor, test, chore\n\n### Description Template\n\n```markdown\n## Summary\n[Brief description of what this PR does]\n\n## Changes\n- [Change 1]\n- [Change 2]\n- [Change 3]\n\n## Type of Change\n- [ ] Bug fix (non-breaking change fixing an issue)\n- [ ] New feature (non-breaking change adding functionality)\n- [ ] Breaking change (fix or feature causing existing functionality to change)\n- [ ] Documentation update\n\n## Testing\n- [ ] Unit tests added/updated\n- [ ] Manual testing performed\n- [ ] All tests passing\n\n## Screenshots (if applicable)\n[Add screenshots for UI changes]\n\n## Related Issues\nCloses #[issue_number]\n```\n\nPlease generate a complete PR description based on the staged changes.\n"),
  GenericCommand.mk (pystr "debug")
    (pystr "Debug Assistant")
    (pystr "Systematic debugging help for issues")
    (pystr "# Debug Assistant\n\n## Overview\nSystematic approach to debugging issues in the code.\n\n## Debugging Process\n\n### 1. Understand the Problem\n- What is the expected behavior?\n- What is the actual behavior?\n- When did this start happening?\n- Can it be reproduced consistently?\n\n### 2. Gather Information\n- Error messages and stack traces\n- Relevant log output\n- Input data that causes the issue\n- Environment details (OS, versions, etc.)\n\n### 3. Isolate the Issue\n- Identify the smallest code path that reproduces the bug\n- Check recent changes that might have introduced it\n- Test with different inputs\n\n### 4. Analyze\n- Review the code logic step by step\n- Check variable values at key points\n- Verify assumptions about data types and values\n- Look for common issues:\n  - Null/undefined references\n  - Off-by-one errors\n  - Race conditions\n  - Type mismatches\n\n### 5. Fix and Verify\n- Implement the fix\n- Test the original failing case\n- Test related functionality for regressions\n- Add tests to prevent recurrence\n\nPlease describe the issue you\x27re experiencing, and I\x27ll help debug it systematically.\n"),
  GenericCommand.mk (pystr "refactor")
    (pystr "Refactor Suggestions")
    (pystr "Analyze code and suggest refactoring improvements")
    (pystr "# Refactor Suggestions\n\n## Overview\nAnalyze the selected code and suggest refactoring improvements.\n\n## Analysis Criteria\n\n### 1. Code Smells to Look For\n- Long methods/functions (>20 lines)\n- Deep nesting (>3 levels)\n- Duplicate code\n- Large classes/modules\n- Long parameter lists\n- Feature envy (using other object\x27s data extensively)\n- Dead code\n\n### 2. Improvement Patterns\n- Extract method/function\n- Extract class/module\n- Introduce parameter object\n- Replace conditionals with polymorphism\n- Simplify boolean expressions\n- Use early returns\n\n### 3. Clean Code Principles\n- Single Responsibility Principle\n- DRY (Don\x27t Repeat Yourself)\n- KISS (Keep It Simple, Stupid)\n- YAGNI (You Aren\x27t Gonna Need It)\n\n## Output Format\nFor each suggestion, provide:\n1. What to change and why\n2. Before and after code examples\n3. Benefits of the change\n"),
  GenericCommand.mk (pystr "document")
    (pystr "Generate Documentation")
    (pystr "Generate documentation for code")
    (pystr "# Generate Documentation\n\n## Overview\nGenerate comprehensive documentation for the selected code.\n\n## Documentation Types\n\n### 1. Inline Documentation\n- Function/method docstrings\n- Complex logic comments\n- TODO/FIXME annotations\n\n### 2. API Documentation\n- Endpoint descriptions\n- Request/response formats\n- Error codes and handling\n- Authentication requirements\n- Example requests\n\n### 3. README Content\n- Project overview\n- Installation instructions\n- Usage examples\n- Configuration options\n- Contributing guidelines\n\n## Format Guidelines\n- Use clear, concise language\n- Include code examples\n- Document parameters and return values\n- Note any side effects\n- Mention error conditions\n\nPlease generate appropriate documentation for the selected code.\n"),
  GenericCommand.mk (pystr "explain")
    (pystr "Explain Code")
    (pystr "Get a detailed explanation of complex code")
    (pystr "# Explain Code\n\n## Overview\nProvide a detailed explanation of the selected code.\n\n## Explanation Format\n\n### 1. High-Level Summary\nWhat does this code do overall? What problem does it solve?\n\n### 2. Step-by-Step Breakdown\nWalk through the code line by line or block by block:\n- What each section does\n- Why it\x27s done that way\n- Any important algorithms or patterns used\n\n### 3. Key Concepts\nExplain any:\n- Design patterns used\n- Language-specific features\n- Framework conventions\n- Algorithm complexity\n\n### 4. Dependencies & Context\n- What other code does this depend on?\n- What depends on this code?\n- Are there any side effects?\n\n### 5. Potential Issues\n- Edge cases to be aware of\n- Performance considerations\n- Maintainability concerns\n\nPlease explain the selected code in detail.\n"),
  GenericCommand.mk (pystr "optimize")
    (pystr "Optimize Performance")
    (pystr "Analyze and suggest performance optimizations")
    (pystr "# Optimize Performance\n\n## Overview\nAnalyze the code for performance issues and suggest optimizations.\n\n## Analysis Areas\n\n### 1. Time Complexity\n- Algorithm efficiency (Big O)\n- Unnecessary iterations\n- Redundant calculations\n- Opportunities for caching/memoization\n\n### 2. Space Complexity\n- Memory usage\n- Data structure choices\n- Temporary object creation\n- Memory leaks\n\n### 3. I/O Operations\n- Database query efficiency\n- Network request optimization\n- File system operations\n- Batching opportunities\n\n### 4. Concurrency\n- Parallelization opportunities\n- Async/await usage\n- Race conditions\n- Resource contention\n\n### 5. Language-Specific\n- Framework best practices\n- Built-in optimizations\n- Profiling hotspots\n\n## Output Format\nFor each optimization:\n1. Current issue and impact\n2. Suggested improvement\n3. Before/after code\n4. Expected performance gain\n"),
  GenericCommand.mk (pystr "commit")
    (pystr "Generate Commit Message")
    (pystr "Generate a conventional commit message")
    (pystr "# Generate Commit Message\n\n## Overview\nGenerate a well-formatted commit message following conventional commits.\n\n## Format\n```\ntype(scope): subject\n\nbody\n\nfooter\n```\n\n## Types\n- `feat`: New feature\n- `fix`: Bug fix\n- `docs`: Documentation changes\n- `style`: Code style changes (formatting, semicolons, etc.)\n- `refactor`: Code refactoring (no functional changes)\n- `test`: Adding or updating tests\n- `chore`: Maintenance tasks\n\n## Guidelines\n- Subject: imperative mood, lowercase, no period, <50 chars\n- Body: explain what and why (not how), wrap at 72 chars\n- Footer: reference issues, breaking changes\n\n## Examples\n```\nfeat(auth): add OAuth2 login support\n\nImplement OAuth2 authentication flow with Google and GitHub providers.\nIncludes token refresh and secure storage.\n\nCloses #123\n```\n\n```\nfix(api): handle null response in user endpoint\n\nThe /api/users endpoint was crashing when the database returned null\nfor deleted users. Now returns 404 with appropriate message.\n\nFixes #456\n```\n\nPlease analyze the staged changes and generate an appropriate commit message.\n"),
  GenericCommand.mk (pystr "sync-docs")
    (pystr "Sync Documentation")
    (pystr "Update README.md and project-structure.md together")
    (pystr "# Sync Documentation\n\n## Overview\nUpdate both README.md and project-structure.md to reflect current project state.\n\n## Instructions\n\nAnalyze the current project and update documentation:\n\n### 1. Update `.cursor/rules/project-structure.md`\n- Scan directory structure (2 levels deep)\n- Update tech stack if dependencies changed\n- Update run commands if changed\n- Keep under 80 lines\n\n### 2. Update `README.md`\n- Sync project description with project-structure.md\n- Update installation/setup instructions\n- Update usage examples if needed\n- Keep human-friendly (more detail than rules file)\n\n### 3. Ensure Consistency\n- Project name matches in both files\n- Tech stack listed in both\n- Run commands identical in both\n- Directory structure aligned\n\n## Output\n\nShow a summary of changes made to each file.\n")
]

/-- Python `GENERIC_COMMANDS[key]["content"]`. -/
def gcContent (k : PyStr) : PyStr :=
  match GENERIC_COMMANDS.find? (fun c => c.key = k) with
  | some c => c.content
  | none => []

/-- `STARTER_KIT_COMMANDS`: the ten command documents, copied from the
generic-command registry, in source order. -/
def STARTER_KIT_COMMANDS : List (PyStr × PyStr) :=
[
  (pystr "code-review-checklist.md", gcContent (pystr "code-review-checklist")),
  (pystr "write-tests.md", gcContent (pystr "write-tests")),
  (pystr "debug.md", gcContent (pystr "debug")),
  (pystr "explain.md", gcContent (pystr "explain")),
  (pystr "refactor.md", gcContent (pystr "refactor")),
  (pystr "security-audit.md", gcContent (pystr "security-audit")),
  (pystr "commit.md", gcContent (pystr "commit")),
  (pystr "create-pr.md", gcContent (pystr "create-pr")),
  (pystr "document.md", gcContent (pystr "document")),
  (pystr "optimize.md", gcContent (pystr "optimize"))
]

def STARTER_KIT_AGENTS_MD : PyStr :=
  pystr "# AGENTS.md\n\n> Project-wide AI agent guidance for Cursor, GitHub Copilot, and other AI tools.\n\n## Project Overview\n\n[Brief description of the project - what it does, who it\x27s for]\n\n## Build & Run\n\n```bash\n# Install dependencies\n[package manager] install\n\n# Run development server\n[dev command]\n\n# Run tests\n[test command]\n\n# Build for production\n[build command]\n```\n\n## Code Conventions\n\n- **Language**: [Primary language]\n- **Framework**: [Main framework]\n- **Style Guide**: [Link or description]\n\n## Architecture Notes\n\n[Key architectural decisions and patterns used]\n\n## Important Files\n\n- `src/index.ts` - Entry point\n- `src/config.ts` - Configuration\n- [Other key files]\n\n## Testing\n\n- Test framework: [Jest/pytest/etc.]\n- Run all tests: `[command]`\n- Test location: `tests/` or `__tests__/`\n\n## Common Tasks\n\n### Adding a new feature\n1. Create feature branch: `git checkout -b feature/name`\n2. Implement in `src/`\n3. Add tests in `tests/`\n4. Submit PR\n\n### Debugging\n- Check logs in `[location]`\n- Use `[debug command]` for verbose output\n\n---\n\n*This file provides context to AI coding assistants. Keep it updated!*\n"

def STARTER_KIT_README : PyStr :=
  pystr "# Cursor Starter Kit\n\nReady-to-use Cursor Rules and Commands for any project.\n\n## Quick Setup\n\n1. Copy the `.cursor/` folder to your project root\n2. (Optional) Copy `AGENTS.md` to your project root\n3. Customize `project-structure.md` with your project details\n4. Start using commands by typing `/` in Cursor chat!\n\n## What\x27s Included\n\n### Rules (`.cursor/rules/`)\n\n| Rule | Purpose |\n|------|---------|\n| `cursor-rules.md` | Guidelines for writing effective rules |\n| `project-structure.md` | Project overview template (customize this!) |\n| `coding-standards.md` | Generic coding conventions |\n| `git-conventions.md` | Commit message and branch naming |\n| `rule-self-improvement.md` | Guidelines for evolving rules |\n\n### Commands (`.cursor/commands/`)\n\n| Command | Purpose |\n|---------|---------|\n| `/code-review-checklist` | Systematic code review |\n| `/write-tests` | Generate comprehensive tests |\n| `/debug` | Systematic debugging help |\n| `/explain` | Detailed code explanation |\n| `/refactor` | Refactoring suggestions |\n| `/security-audit` | Security vulnerability scan |\n| `/commit` | Generate commit messages |\n| `/create-pr` | Generate PR descriptions |\n| `/document` | Generate documentation |\n| `/optimize` | Performance optimization |\n\n### AGENTS.md\n\nA simpler alternative to `.cursor/rules/` that works with multiple AI tools.\nPlace in your project root for project-wide AI guidance.\n\n## Customization\n\n1. **Edit `project-structure.md`** - Fill in your project details\n2. **Edit `coding-standards.md`** - Adjust to your team\x27s conventions\n3. **Add tech-specific rules** - Create rules for your framework\n\n## Learn More\n\n- [Cursor Rules Documentation](https://docs.cursor.com/context/rules-for-ai)\n- [Cursor Commands Documentation](https://cursor.com/docs/context/commands)\n- [cursor.directory](https://cursor.directory) - Community rules\n\n---\n\nGenerated by [Cursor Kickstart](https://github.com/Youssefhossamm/cursor_rules_commands)\n"

/-! ## generate_starter_kit_zip (cursor_docs_content.py, 1910–1935) -/

/-- `time.localtime(...)[:6]`: a (year, month, day, hour, minute, second)
local-time stamp. -/
abbrev LocalTime6 := Nat × Nat × Nat × Nat × Nat × Nat

/-- One archive member as `zipfile` records it: entry name, modification
time stamp, and uncompressed data. -/
structure ZipEntry where
  path : PyStr
  date_time : LocalTime6
  data : PyStr
deriving DecidableEq, Repr

/-- The `(arcname, data)` pairs written by `generate_starter_kit_zip`, in
`writestr` order: rules, commands, AGENTS.md, README.md. -/
def starter_kit_zip_entries : List (PyStr × PyStr) :=
  STARTER_KIT_RULES.map
    (fun p => (pystr "cursor-starter-kit/.cursor/rules/" ++ p.1, p.2)) ++
  STARTER_KIT_COMMANDS.map
    (fun p => (pystr "cursor-starter-kit/.cursor/commands/" ++ p.1, p.2)) ++
  [(pystr "cursor-starter-kit/AGENTS.md", STARTER_KIT_AGENTS_MD)] ++
  [(pystr "cursor-starter-kit/README.md", STARTER_KIT_README)]

/-- Translation of `generate_starter_kit_zip`.  `Modelled from the spec:`
the `zipfile` standard-library module is external to the repository;
`ZipFile.writestr` with a plain string arcname stamps each new entry with
the current local time (`ZipInfo(filename=arcname,
date_time=time.localtime(time.time())[:6])`), so the ambient clock reading
is passed as an explicit argument and recorded in every entry. -/
def generate_starter_kit_zip (now : LocalTime6) : List ZipEntry :=
  starter_kit_zip_entries.map (fun p => ZipEntry.mk p.1 now p.2)

/-! ## Helper lemmas -/

theorem stripLeft_length_le (l : PyStr) : (stripLeft l).length ≤ l.length := by
  induction l with
  | nil => simp [stripLeft]
  | cons c t ih =>
    simp only [stripLeft]
    split
    · exact Nat.le_succ_of_le ih
    · simp

theorem pyStrip_length_le (l : PyStr) : (pyStrip l).length ≤ l.length := by
  unfold pyStrip stripRight
  calc (stripLeft (stripLeft l).reverse).reverse.length
      = (stripLeft (stripLeft l).reverse).length := by simp
    _ ≤ (stripLeft l).reverse.length := stripLeft_length_le _
    _ = (stripLeft l).length := by simp
    _ ≤ l.length := stripLeft_length_le _

theorem parse_of_no_marker (b : PyStr)
    (hb : startsWithPy b tripleDash = false) :
    parse_frontmatter b = (none, b) := by
  simp [parse_frontmatter, hb]

theorem any_eq_find_isSome (p : PyStr × YVal → Bool)
    (l : List (PyStr × YVal)) : l.any p = (l.find? p).isSome := by
  induction l with
  | nil => simp
  | cons q t ih =>
    by_cases hq : p q
    · simp [List.any, List.find?, hq]
    · simp only [List.any_cons, List.find?, hq]
      simpa using ih

/-! ## C2: graceful degradation of `parse_frontmatter` -/

/-- C2: for every input text that does not start with the three-dash
marker, or whose opening marker has no later occurrence of the marker,
or whose header content fails to parse as YAML, `parse_frontmatter`
returns `(none, original text)`; the embedding is a total function, so no
error can be raised. -/
theorem frontmatter_graceful (content : PyStr)
    (h : startsWithPy content tripleDash = false ∨
         findFrom content tripleDash 3 = none ∨
         ∃ e, findFrom content tripleDash 3 = some e ∧
           yamlSafeLoad (pyStrip (pySlice content 3 e)) = .error ()) :
    parse_frontmatter content = (none, content) := by
  by_cases hs : startsWithPy content tripleDash = false
  · exact parse_of_no_marker content hs
  · rcases h with h | h | ⟨e, he, hy⟩
    · exact absurd h hs
    · simp [parse_frontmatter, hs, h]
    · simp [parse_frontmatter, hs, he, hy]

theorem frontmatter_graceful_witness :
    (startsWithPy (pystr "no header here") tripleDash = false) ∧
    parse_frontmatter (pystr "no header here") =
      (none, pystr "no header here") :=
  ⟨by decide, frontmatter_graceful _ (Or.inl (by decide))⟩

/-! ## C3: a present header need not be a mapping (corrected) -/

/-- C3 counterexample: on `"---\nhello\n---\nbody"` the delimited header
text parses as YAML to the plain string `"hello"`, and `parse_frontmatter`
returns it as a present, non-mapping header instead of degrading to an
absent header. -/
theorem header_non_mapping_cex :
    ((parse_frontmatter (pystr "---\nhello\n---\nbody")).1).isSome = true ∧
    headerIsMap (parse_frontmatter (pystr "---\nhello\n---\nbody")).1
      = false := by decide

/-- C3 (amended): whenever `parse_frontmatter` returns a present header,
that header is exactly the YAML value (mapping or not) that the delimited
header text parsed to; only delimiter-less texts and YAML parse failures
produce an absent header with the original text as body. -/
theorem header_value_verbatim (content : PyStr) (v : Yaml)
    (h : (parse_frontmatter content).1 = some v) :
    ∃ e, findFrom content tripleDash 3 = some e ∧
      yamlSafeLoad (pyStrip (pySlice content 3 e)) = .ok (some v) := by
  by_cases hs : startsWithPy content tripleDash = false
  · rw [parse_of_no_marker content hs] at h
    simp at h
  · rw [parse_frontmatter] at h
    rw [if_neg hs] at h
    cases hfind : findFrom content tripleDash 3 with
    | none => rw [hfind] at h; simp at h
    | some e =>
      rw [hfind] at h
      refine ⟨e, rfl, ?_⟩
      cases hy : yamlSafeLoad (pyStrip (pySlice content 3 e)) with
      | ok fm =>
        simp only [hy] at h
        exact congrArg Except.ok h
      | error u =>
        simp only [hy] at h
        simp at h

theorem header_value_verbatim_witness :
    ((parse_frontmatter (pystr "---\nhello\n---\nbody")).1 =
      some (Yaml.yscalar (YVal.ystr (pystr "hello")))) ∧
    ∃ e, findFrom (pystr "---\nhello\n---\nbody") tripleDash 3 = some e ∧
      yamlSafeLoad
          (pyStrip (pySlice (pystr "---\nhello\n---\nbody") 3 e)) =
        .ok (some (Yaml.yscalar (YVal.ystr (pystr "hello")))) :=
  ⟨by decide, header_value_verbatim _ _ (by decide)⟩

/-! ## C5: `get_file_annotations` can raise (code bug) -/

/-- C5 evidence: on the input `"---\n42\n---\nx"` the header parses to the
integer `42`; Python then evaluates `"description" in 42`, which raises
`TypeError` — contradicting the no-fatal-error design of the spec.  The
embedding returns the error value. -/
theorem annotations_raise_on_int_header :
    get_file_annotations (pystr "f.md") (pystr "---\n42\n---\nx") =
      .error () := by decide

/-! ## C9: idempotence on the returned body (corrected) -/

/-- C9 counterexample: for the raw text
`"---\nk: v\n---\n---\na: b\n---\nc"` the returned body itself starts with
the marker, and re-parsing it yields a second header rather than
`(none, body)`. -/
theorem parse_idempotent_cex :
    ((parse_frontmatter (pystr "---\nk: v\n---\n---\na: b\n---\nc")).2 =
      pystr "---\na: b\n---\nc") ∧
    parse_frontmatter (pystr "---\na: b\n---\nc") ≠
      (none, pystr "---\na: b\n---\nc") := by decide

/-- C9 (amended): re-parsing the body returned by `parse_frontmatter`
yields `(none, that same body)` whenever that body does not itself start
with the three-dash marker; a body that does start with the marker can
parse to a second header (known nested-marker limitation). -/
theorem parse_idempotent_on_markerless_body (text : PyStr)
    (h : startsWithPy (parse_frontmatter text).2 tripleDash = false) :
    parse_frontmatter ((parse_frontmatter text).2) =
      (none, (parse_frontmatter text).2) :=
  parse_of_no_marker _ h

theorem parse_idempotent_on_markerless_body_witness :
    (startsWithPy (parse_frontmatter (pystr "---\na: b\n---\nhello")).2
      tripleDash = false) ∧
    parse_frontmatter ((parse_frontmatter (pystr "---\na: b\n---\nhello")).2)
      = (none, (parse_frontmatter (pystr "---\na: b\n---\nhello")).2) :=
  ⟨by decide, parse_idempotent_on_markerless_body _ (by decide)⟩

/-! ## C10: an empty header block consumes the markers -/

/-- C10: when the delimited header block parses as YAML to an empty/absent
value (Python `None`, e.g. a whitespace-only block), `parse_frontmatter`
returns an absent header together with the whitespace-trimmed text after
the closing marker — which is never the original text: the marker
delimiters are consumed. -/
theorem empty_header_block_consumes_markers (content : PyStr) (e : Nat)
    (h1 : startsWithPy content tripleDash = true)
    (h2 : findFrom content tripleDash 3 = some e)
    (h3 : yamlSafeLoad (pyStrip (pySlice content 3 e)) = .ok none) :
    parse_frontmatter content = (none, pyStrip (pyDrop content (e + 3))) ∧
    pyStrip (pyDrop content (e + 3)) ≠ content := by
  constructor
  · simp [parse_frontmatter, h1, h2, h3]
  · have hne : content ≠ [] := by
      intro hc
      rw [hc] at h1
      simp [startsWithPy, tripleDash] at h1
    have hlt : (pyStrip (pyDrop content (e + 3))).length < content.length := by
      calc (pyStrip (pyDrop content (e + 3))).length
          ≤ (pyDrop content (e + 3)).length := pyStrip_length_le _
        _ = content.length - (e + 3) := by simp [pyDrop]
        _ < content.length :=
            Nat.sub_lt (List.length_pos.mpr hne) (by omega)
    intro heq
    rw [heq] at hlt
    exact Nat.lt_irrefl _ hlt

theorem empty_header_block_consumes_markers_witness :
    (startsWithPy (pystr "---\n---\nbody") tripleDash = true) ∧
    (findFrom (pystr "---\n---\nbody") tripleDash 3 = some 4) ∧
    (yamlSafeLoad (pyStrip (pySlice (pystr "---\n---\nbody") 3 4)) =
      .ok none) ∧
    (parse_frontmatter (pystr "---\n---\nbody") =
      (none, pyStrip (pyDrop (pystr "---\n---\nbody") 7)) ∧
     pyStrip (pyDrop (pystr "---\n---\nbody") 7) ≠ pystr "---\n---\nbody") :=
  ⟨by decide, by decide, by decide,
   empty_header_block_consumes_markers _ 4 (by decide) (by decide)
     (by decide)⟩

/-! ## C7/C8: starter-kit packaging -/

theorem all_map_general {a b : Type} (f : a → b) (l : List a)
    (p : b → Bool) : (l.map f).all p = l.all (fun x => p (f x)) := by
  induction l with
  | nil => rfl
  | cons x t ih => simp [List.all_cons, ih]

theorem zip_path_data_eq (now : LocalTime6) :
    (generate_starter_kit_zip now).map (fun z => (z.path, z.data)) =
      starter_kit_zip_entries := by
  rw [generate_starter_kit_zip, List.map_map]
  have hc : ((fun z : ZipEntry => (z.path, z.data)) ∘
      fun p : PyStr × PyStr => ZipEntry.mk p.1 now p.2) = id := by
    funext p; rfl
  rw [hc, List.map_id]

/-- C7: for any clock reading, the packaged archive contains exactly
17 entries (5 rule documents, 10 command documents, AGENTS.md, README.md):
the first five paths are under `cursor-starter-kit/.cursor/rules/`, the
next ten under `cursor-starter-kit/.cursor/commands/`, the last two are
directly under the kit root, and no entry has empty content. -/
theorem starter_kit_layout (now : LocalTime6) :
    (generate_starter_kit_zip now).length = 17 ∧
    STARTER_KIT_RULES.length = 5 ∧
    STARTER_KIT_COMMANDS.length = 10 ∧
    (((generate_starter_kit_zip now).map ZipEntry.path).take 5).all
      (fun p => startsWithPy p (pystr "cursor-starter-kit/.cursor/rules/"))
      = true ∧
    ((((generate_starter_kit_zip now).map ZipEntry.path).drop 5).take 10).all
      (fun p => startsWithPy p (pystr "cursor-starter-kit/.cursor/commands/"))
      = true ∧
    ((generate_starter_kit_zip now).map ZipEntry.path).drop 15 =
      [pystr "cursor-starter-kit/AGENTS.md",
       pystr "cursor-starter-kit/README.md"] ∧
    (generate_starter_kit_zip now).all (fun z => !z.data.isEmpty) = true := by
  have hpath : (generate_starter_kit_zip now).map ZipEntry.path =
      starter_kit_zip_entries.map Prod.fst := by
    rw [generate_starter_kit_zip, List.map_map]
    rfl
  have hdata : (generate_starter_kit_zip now).all (fun z => !z.data.isEmpty) =
      starter_kit_zip_entries.all (fun p => !p.2.isEmpty) := by
    rw [generate_starter_kit_zip, all_map_general]
  have hlen : (generate_starter_kit_zip now).length =
      starter_kit_zip_entries.length := by
    simp [generate_starter_kit_zip]
  refine ⟨?_, by decide, by decide, ?_, ?_, ?_, ?_⟩
  · rw [hlen]; decide
  · rw [hpath]; decide
  · rw [hpath]; decide
  · rw [hpath]; decide
  · rw [hdata]; decide

theorem starter_kit_layout_witness :
    (generate_starter_kit_zip (2024, 1, 1, 0, 0, 0)).length = 17 ∧
    STARTER_KIT_RULES.length = 5 ∧
    STARTER_KIT_COMMANDS.length = 10 ∧
    (((generate_starter_kit_zip (2024, 1, 1, 0, 0, 0)).map
        ZipEntry.path).take 5).all
      (fun p => startsWithPy p (pystr "cursor-starter-kit/.cursor/rules/"))
      = true ∧
    ((((generate_starter_kit_zip (2024, 1, 1, 0, 0, 0)).map
        ZipEntry.path).drop 5).take 10).all
      (fun p => startsWithPy p (pystr "cursor-starter-kit/.cursor/commands/"))
      = true ∧
    ((generate_starter_kit_zip (2024, 1, 1, 0, 0, 0)).map
        ZipEntry.path).drop 15 =
      [pystr "cursor-starter-kit/AGENTS.md",
       pystr "cursor-starter-kit/README.md"] ∧
    (generate_starter_kit_zip (2024, 1, 1, 0, 0, 0)).all
      (fun z => !z.data.isEmpty) = true :=
  starter_kit_layout (2024, 1, 1, 0, 0, 0)

/-- C8 counterexample: two invocations of the packager at different clock
readings produce different archive records (each `writestr` stamps the
entry with the invocation-time local time), so the produced blobs are not
byte-identical. -/
theorem starter_kit_zip_time_dependent_cex :
    generate_starter_kit_zip (2024, 1, 1, 0, 0, 0) ≠
      generate_starter_kit_zip (2024, 1, 1, 0, 0, 1) := by decide

/-- C8 (amended): any two invocations of the packager produce archives
with identical entry names and identical entry contents; only the embedded
per-entry timestamps (and hence the exact bytes) depend on the clock. -/
theorem starter_kit_entries_reproducible (t1 t2 : LocalTime6) :
    (generate_starter_kit_zip t1).map (fun z => (z.path, z.data)) =
      (generate_starter_kit_zip t2).map (fun z => (z.path, z.data)) := by
  rw [zip_path_data_eq, zip_path_data_eq]

theorem starter_kit_entries_reproducible_witness :
    (generate_starter_kit_zip (2024, 1, 1, 0, 0, 0)).map
        (fun z => (z.path, z.data)) =
      (generate_starter_kit_zip (2025, 6, 2, 3, 4, 5)).map
        (fun z => (z.path, z.data)) :=
  starter_kit_entries_reproducible (2024, 1, 1, 0, 0, 0) (2025, 6, 2, 3, 4, 5)

/-! ## C4: annotations for mapping headers -/

theorem pyContains_map (key : PyStr) (kvs : List (PyStr × YVal)) :
    pyContains key (Yaml.ymap kvs) =
      .ok (kvs.find? (fun q => q.1 = key)).isSome := by
  simp [pyContains, any_eq_find_isSome]

theorem except_bind_ok {a b c : Type} (x : b) (f : b → Except a c) :
    (Except.ok x >>= f) = f x := rfl

/-- C4: for every document whose header parses to a key/value mapping,
`get_file_annotations` returns exactly one annotation per recognized key
present, in the fixed order `description`, `globs`, `alwaysApply`, each
carrying the value stored under that key and a fixed non-empty explanation
string; recognized keys absent from the mapping and unrecognized keys
produce no annotation.  In particular a header containing all three keys
yields exactly three annotations in that order. -/
theorem annotations_characterized (filename content : PyStr)
    (kvs : List (PyStr × YVal)) (b : PyStr)
    (h : parse_frontmatter content = (some (Yaml.ymap kvs), b)) :
    get_file_annotations filename content =
      .ok ((match kvs.find? (fun q => q.1 = keyDescription) with
            | some q => [Annot.mk keyDescription q.2 explDescription]
            | none => []) ++
           (match kvs.find? (fun q => q.1 = keyGlobs) with
            | some q => [Annot.mk keyGlobs q.2 explGlobs]
            | none => []) ++
           (match kvs.find? (fun q => q.1 = keyAlwaysApply) with
            | some q => [Annot.mk keyAlwaysApply q.2 explAlwaysApply]
            | none => [])) ∧
    explDescription ≠ [] ∧ explGlobs ≠ [] ∧ explAlwaysApply ≠ [] := by
  refine ⟨?_, by decide, by decide, by decide⟩
  have hfm : (parse_frontmatter content).1 = some (Yaml.ymap kvs) := by
    rw [h]
  cases kvs with
  | nil =>
    simp only [get_file_annotations, hfm, pyTruthy, List.isEmpty_nil,
      Bool.not_true, if_false, List.find?_nil, List.nil_append]
    rfl
  | cons q0 t0 =>
    cases hd : (q0 :: t0).find? (fun q => q.1 = keyDescription) <;>
    cases hg : (q0 :: t0).find? (fun q => q.1 = keyGlobs) <;>
    cases ha : (q0 :: t0).find? (fun q => q.1 = keyAlwaysApply) <;>
      simp only [get_file_annotations, hfm, pyTruthy, List.isEmpty_cons,
        Bool.not_false, if_true, pyContains_map, hd, hg, ha,
        Option.isSome_some, Option.isSome_none, except_bind_ok,
        if_true, if_false, pyGetItem, List.nil_append, List.append_nil,
        Bool.false_eq_true, Bool.true_eq_false] <;>
      rfl

theorem annotations_characterized_witness :
    (parse_frontmatter
        (pystr "---\ndescription: a\nglobs: src\nalwaysApply: true\n---\nbody")
      = (some (Yaml.ymap
          [(pystr "description", YVal.ystr (pystr "a")),
           (pystr "globs", YVal.ystr (pystr "src")),
           (pystr "alwaysApply", YVal.ybool true)]), pystr "body")) ∧
    get_file_annotations (pystr "f.md")
        (pystr "---\ndescription: a\nglobs: src\nalwaysApply: true\n---\nbody")
      = .ok [Annot.mk keyDescription (YVal.ystr (pystr "a")) explDescription,
             Annot.mk keyGlobs (YVal.ystr (pystr "src")) explGlobs,
             Annot.mk keyAlwaysApply (YVal.ybool true) explAlwaysApply] :=
  ⟨by decide,
   (annotations_characterized (pystr "f.md")
      (pystr "---\ndescription: a\nglobs: src\nalwaysApply: true\n---\nbody")
      [(pystr "description", YVal.ystr (pystr "a")),
       (pystr "globs", YVal.ystr (pystr "src")),
       (pystr "alwaysApply", YVal.ybool true)]
      (pystr "body") (by decide)).1⟩

/-! ## C6: template-mode generation, technologies and overview -/

/-- C6: in template mode, if `tech_stack` is empty the "Key Technologies"
section is exactly the fixed fallback bullet and the "Overview" sentence
uses the fixed fallback phrase; if `tech_stack` is nonempty the section is
exactly one bolded bullet per entry, in input order, and the "Overview"
sentence joins the entries with commas. -/
theorem template_tech_overview (project_name : PyStr)
    (tech_stack : List PyStr) (main_files architecture_notes : PyStr) :
    (tech_stack = [] →
      (∃ u w, generate_template_based_structure project_name tech_stack
          main_files architecture_notes =
        u ++ pystr "\n\n## Key Technologies\n\n" ++
          pystr "- Not specified" ++
          pystr "\n\n## Running the Application\n\n" ++ w) ∧
      (∃ u w, generate_template_based_structure project_name tech_stack
          main_files architecture_notes =
        u ++ pystr "\n\n## Overview\n\n" ++
          (pystr "A project built with " ++
            pystr "various technologies" ++ pystr ".") ++
          pystr "\n\n## Directory Layout" ++ w)) ∧
    (tech_stack ≠ [] →
      (∃ u w, generate_template_based_structure project_name tech_stack
          main_files architecture_notes =
        u ++ pystr "\n\n## Key Technologies\n\n" ++
          joinSep (pystr "\n")
            (tech_stack.map (fun tech => pystr "- **" ++ tech ++ pystr "**")) ++
          pystr "\n\n## Running the Application\n\n" ++ w) ∧
      (∃ u w, generate_template_based_structure project_name tech_stack
          main_files architecture_notes =
        u ++ pystr "\n\n## Overview\n\n" ++
          (pystr "A project built with " ++
            joinSep (pystr ", ") tech_stack ++ pystr ".") ++
          pystr "\n\n## Directory Layout" ++ w)) := by
  constructor
  · intro he
    subst he
    constructor
    · refine ⟨pystr "---\ndescription: " ++
        (pystr "Project structure and architecture overview for " ++
          project_name) ++
        pystr "\nglobs: []\nalwaysApply: true\n---\n\n# Project Structure: " ++
        project_name ++
        pystr "\n\n## Overview\n\n" ++
        (pystr "A project built with " ++ pystr "various technologies" ++
          pystr ".") ++
        pystr "\n\n## Directory Layout" ++ pystr "\n\n```\n" ++
        (if main_files = [] then pystr "src/\n├── main.py\n└── utils.py"
         else main_files) ++
        pystr "\n```\n\n## Architecture\n\n" ++
        (if architecture_notes = []
         then pystr "Describe your architecture here."
         else architecture_notes),
        pystr "```bash\n# Add your run instructions here\n```" ++
        pystr "\n\n## Environment Variables\n\n" ++
        pystr "- Add your environment variables here" ++ pystr "\n", ?_⟩
      simp only [generate_template_based_structure,
        PROJECT_STRUCTURE_TEMPLATE_fill, if_pos, List.append_assoc]
    · refine ⟨pystr "---\ndescription: " ++
        (pystr "Project structure and architecture overview for " ++
          project_name) ++
        pystr "\nglobs: []\nalwaysApply: true\n---\n\n# Project Structure: " ++
        project_name,
        pystr "\n\n```\n" ++
        (if main_files = [] then pystr "src/\n├── main.py\n└── utils.py"
         else main_files) ++
        pystr "\n```\n\n## Architecture\n\n" ++
        (if architecture_notes = []
         then pystr "Describe your architecture here."
         else architecture_notes) ++
        pystr "\n\n## Key Technologies\n\n" ++ pystr "- Not specified" ++
        pystr "\n\n## Running the Application\n\n" ++
        pystr "```bash\n# Add your run instructions here\n```" ++
        pystr "\n\n## Environment Variables\n\n" ++
        pystr "- Add your environment variables here" ++ pystr "\n", ?_⟩
      simp only [generate_template_based_structure,
        PROJECT_STRUCTURE_TEMPLATE_fill, if_pos, List.append_assoc]
  · intro hne
    constructor
    · refine ⟨pystr "---\ndescription: " ++
        (pystr "Project structure and architecture overview for " ++
          project_name) ++
        pystr "\nglobs: []\nalwaysApply: true\n---\n\n# Project Structure: " ++
        project_name ++
        pystr "\n\n## Overview\n\n" ++
        (pystr "A project built with " ++ joinSep (pystr ", ") tech_stack ++
          pystr ".") ++
        pystr "\n\n## Directory Layout" ++ pystr "\n\n```\n" ++
        (if main_files = [] then pystr "src/\n├── main.py\n└── utils.py"
         else main_files) ++
        pystr "\n```\n\n## Architecture\n\n" ++
        (if architecture_notes = []
         then pystr "Describe your architecture here."
         else architecture_notes),
        pystr "```bash\n# Add your run instructions here\n```" ++
        pystr "\n\n## Environment Variables\n\n" ++
        pystr "- Add your environment variables here" ++ pystr "\n", ?_⟩
      simp only [generate_template_based_structure,
        PROJECT_STRUCTURE_TEMPLATE_fill, if_neg hne, List.append_assoc]
    · refine ⟨pystr "---\ndescription: " ++
        (pystr "Project structure and architecture overview for " ++
          project_name) ++
        pystr "\nglobs: []\nalwaysApply: true\n---\n\n# Project Structure: " ++
        project_name,
        pystr "\n\n```\n" ++
        (if main_files = [] then pystr "src/\n├── main.py\n└── utils.py"
         else main_files) ++
        pystr "\n```\n\n## Architecture\n\n" ++
        (if architecture_notes = []
         then pystr "Describe your architecture here."
         else architecture_notes) ++
        pystr "\n\n## Key Technologies\n\n" ++
        joinSep (pystr "\n")
          (tech_stack.map (fun tech => pystr "- **" ++ tech ++ pystr "**")) ++
        pystr "\n\n## Running the Application\n\n" ++
        pystr "```bash\n# Add your run instructions here\n```" ++
        pystr "\n\n## Environment Variables\n\n" ++
        pystr "- Add your environment variables here" ++ pystr "\n", ?_⟩
      simp only [generate_template_based_structure,
        PROJECT_STRUCTURE_TEMPLATE_fill, if_neg hne, List.append_assoc]

theorem template_tech_overview_witness :
    (([pystr "Python", pystr "Go"] : List PyStr) ≠ []) ∧
    (∃ u w, generate_template_based_structure (pystr "Foo")
        [pystr "Python", pystr "Go"] (pystr "src/\n└─ main.py")
        (pystr "Monolith") =
      u ++ pystr "\n\n## Key Technologies\n\n" ++
        joinSep (pystr "\n")
          ([pystr "Python", pystr "Go"].map
            (fun tech => pystr "- **" ++ tech ++ pystr "**")) ++
        pystr "\n\n## Running the Application\n\n" ++ w) ∧
    joinSep (pystr "\n")
        ([pystr "Python", pystr "Go"].map
          (fun tech => pystr "- **" ++ tech ++ pystr "**")) =
      pystr "- **Python**\n- **Go**" :=
  ⟨by decide,
   ((template_tech_overview (pystr "Foo") [pystr "Python", pystr "Go"]
      (pystr "src/\n└─ main.py") (pystr "Monolith")).2 (by decide)).1,
   by decide⟩

/-! ## C1: round-trip lemmas — scalar and key token facts -/

theorem okChar_ne_nl (c : Char) (h : okChar c = true) : c ≠ '\n' := by
  intro he
  subst he
  exact absurd h (by decide)

theorem okChar_ne_colon (c : Char) (h : okChar c = true) : c ≠ ':' := by
  intro he
  subst he
  exact absurd h (by decide)

theorem keyChar_ne_nl (c : Char) (h : keyChar c = true) : c ≠ '\n' := by
  intro he
  subst he
  exact absurd h (by decide)

theorem keyChar_ne_colon (c : Char) (h : keyChar c = true) : c ≠ ':' := by
  intro he
  subst he
  exact absurd h (by decide)

theorem keyChar_not_space (c : Char) (h : keyChar c = true) :
    isPySpace c = false := by
  cases hs : isPySpace c with
  | false => rfl
  | true =>
    exfalso
    simp only [isPySpace, Bool.or_eq_true, decide_eq_true_eq] at hs
    rcases hs with ((((h1 | h1) | h1) | h1) | h1) | h1 <;> subst h1 <;>
      exact absurd h (by decide)

theorem scalarShape_facts (w : PyStr) (h : scalarShape w = true) :
    w ≠ [] ∧ (∀ c ∈ w, okChar c = true) ∧
    (∀ c, w.head? = some c → isPySpace c = false) ∧
    (∀ c, w.getLast? = some c → isPySpace c = false) := by
  cases w with
  | nil => exact absurd h (by decide)
  | cons c t =>
    simp only [scalarShape, Bool.and_eq_true, Bool.not_eq_true'] at h
    obtain ⟨⟨⟨hall, hh⟩, hl⟩, _⟩ := h
    refine ⟨by simp, List.all_eq_true.mp hall, ?_, ?_⟩
    · intro d hd
      simp only [List.head?_cons, Option.some.injEq] at hd
      subst hd
      exact hh
    · intro d hd
      rw [hd] at hl
      simpa using hl

theorem parseScalar_tok (w : PyStr) (y : YVal) (h : parseScalar w = some y) :
    w = pystr "[]" ∨ scalarShape w = true := by
  by_cases h1 : w = pystr "[]"
  · exact Or.inl h1
  · right
    cases hb : scalarShape w with
    | true => rfl
    | false =>
      unfold parseScalar at h
      rw [if_neg h1, if_pos hb] at h
      exact absurd h (by simp)

theorem parseScalar_facts (w : PyStr) (y : YVal)
    (h : parseScalar w = some y) :
    w ≠ [] ∧ '\n' ∉ w ∧ ':' ∉ w ∧
    (∀ c, w.head? = some c → isPySpace c = false) ∧
    (∀ c, w.getLast? = some c → isPySpace c = false) := by
  rcases parseScalar_tok w y h with h1 | h1
  · subst h1
    refine ⟨by decide, by decide, by decide, ?_, ?_⟩
    · intro c hc
      rw [show (pystr "[]").head? = some '[' from rfl,
        Option.some.injEq] at hc
      subst hc
      decide
    · intro c hc
      rw [show (pystr "[]").getLast? = some ']' from rfl,
        Option.some.injEq] at hc
      subst hc
      decide
  · obtain ⟨hne, hall, hh, hl⟩ := scalarShape_facts w h1
    refine ⟨hne, ?_, ?_, hh, hl⟩
    · intro hm
      exact okChar_ne_nl _ (hall _ hm) rfl
    · intro hm
      exact okChar_ne_colon _ (hall _ hm) rfl

theorem keyOk_facts (k : PyStr) (h : keyOk k = true) :
    k ≠ [] ∧ ':' ∉ k ∧ '\n' ∉ k ∧
    (∀ c, k.head? = some c → isPySpace c = false) := by
  simp only [keyOk, Bool.and_eq_true, Bool.not_eq_true'] at h
  obtain ⟨⟨⟨⟨⟨hne, hall⟩, _⟩, _⟩, _⟩, _⟩ := h
  have hall2 := List.all_eq_true.mp hall
  refine ⟨by simpa using hne, ?_, ?_, ?_⟩
  · intro hm
    exact keyChar_ne_colon _ (hall2 _ hm) rfl
  · intro hm
    exact keyChar_ne_nl _ (hall2 _ hm) rfl
  · intro c hc
    cases k with
    | nil => simp at hc
    | cons d t =>
      simp only [List.head?_cons, Option.some.injEq] at hc
      subst hc
      exact keyChar_not_space _ (hall2 _ (List.mem_cons_self _ _))

/-! ## C1: round-trip lemmas — stripping -/

theorem stripLeft_cons_nonspace (c : Char) (l : PyStr)
    (h : isPySpace c = false) : stripLeft (c :: l) = c :: l := by
  simp [stripLeft, h]

theorem stripLeft_cons_space (c : Char) (l : PyStr)
    (h : isPySpace c = true) : stripLeft (c :: l) = stripLeft l := by
  simp [stripLeft, h]

theorem pyStrip_cons_space (c : Char) (l : PyStr)
    (h : isPySpace c = true) : pyStrip (c :: l) = pyStrip l := by
  simp [pyStrip, stripLeft_cons_space c l h]

theorem stripLeft_eq_self (l : PyStr)
    (h : ∀ c, l.head? = some c → isPySpace c = false) : stripLeft l = l := by
  cases l with
  | nil => rfl
  | cons c t => exact stripLeft_cons_nonspace c t (h c rfl)

theorem stripRight_eq_self (l : PyStr)
    (h : ∀ c, l.getLast? = some c → isPySpace c = false) :
    stripRight l = l := by
  unfold stripRight
  rw [stripLeft_eq_self l.reverse, List.reverse_reverse]
  intro c hc
  exact h c (by rwa [List.head?_reverse] at hc)

theorem stripRight_concat_space (l : PyStr) (c : Char)
    (h : isPySpace c = true) : stripRight (l ++ [c]) = stripRight l := by
  unfold stripRight
  rw [List.reverse_append]
  simp only [List.reverse_cons, List.reverse_nil, List.nil_append,
    List.cons_append]
  rw [stripLeft_cons_space c l.reverse h]

theorem pyStrip_wrapped (l : PyStr) (hne : l ≠ [])
    (hh : ∀ c, l.head? = some c → isPySpace c = false)
    (hl : ∀ c, l.getLast? = some c → isPySpace c = false) :
    pyStrip ('\n' :: (l ++ ['\n'])) = l := by
  unfold pyStrip
  rw [stripLeft_cons_space '\n' (l ++ ['\n']) (by decide)]
  cases l with
  | nil => exact absurd rfl hne
  | cons d t =>
    rw [stripLeft_eq_self ((d :: t) ++ ['\n'])]
    · rw [stripRight_concat_space (d :: t) '\n' (by decide)]
      exact stripRight_eq_self (d :: t) hl
    · intro c hc
      simp only [List.cons_append, List.head?_cons, Option.some.injEq] at hc
      subst hc
      exact hh d rfl

/-! ## C1: round-trip lemmas — line rendering and parsing -/

theorem splitAtColon_append (k r : PyStr) (h : ':' ∉ k) :
    splitAtColon (k ++ ':' :: r) = some (k, r) := by
  induction k with
  | nil => simp [splitAtColon]
  | cons c t ih =>
    have hc : ¬(c = ':') := by
      intro he
      exact h (he ▸ List.mem_cons_self c t)
    have ht : ':' ∉ t := fun hm => h (List.mem_cons_of_mem c hm)
    simp [splitAtColon, hc, ih ht]

theorem wfPair_parts (p : PyStr × YVal) (h : wfPair p = true) :
    keyOk p.1 = true ∧ parseScalar (renderVal p.2) = some p.2 := by
  simp only [wfPair, Bool.and_eq_true, beq_iff_eq] at h
  exact h

theorem parseMapLine_render (p : PyStr × YVal) (h : wfPair p = true) :
    parseMapLine (renderLine p) = some p := by
  obtain ⟨hk, hv⟩ := wfPair_parts p h
  have hcol : ':' ∉ p.1 := (keyOk_facts p.1 hk).2.1
  cases p with
  | mk k v =>
    simp only [renderLine] at *
    rw [parseMapLine, splitAtColon_append k (' ' :: renderVal v) hcol]
    simp [hk, hv]

theorem mapLines_render (kvs : List (PyStr × YVal))
    (hall : kvs.all wfPair = true) :
    mapLines (kvs.map renderLine) = some kvs := by
  induction kvs with
  | nil => rfl
  | cons p t ih =>
    rw [List.all_cons, Bool.and_eq_true] at hall
    simp [mapLines, parseMapLine_render p hall.1, ih hall.2]

theorem renderLine_ne_nil (p : PyStr × YVal) (h : wfPair p = true) :
    renderLine p ≠ [] := by
  obtain ⟨hk, _⟩ := wfPair_parts p h
  have := (keyOk_facts p.1 hk).1
  cases hp : p.1 with
  | nil => exact absurd hp this
  | cons c t => simp [renderLine, hp]

theorem renderLine_no_nl (p : PyStr × YVal) (h : wfPair p = true) :
    '\n' ∉ renderLine p := by
  obtain ⟨hk, hv⟩ := wfPair_parts p h
  simp only [renderLine, List.mem_append, List.mem_cons]
  rintro (hm | hm | hm | hm)
  · exact (keyOk_facts p.1 hk).2.2.1 hm
  · exact absurd hm.symm (by decide)
  · exact absurd hm.symm (by decide)
  · exact (parseScalar_facts _ _ hv).2.1 hm

theorem renderLine_head (p : PyStr × YVal) (h : wfPair p = true) :
    ∀ c, (renderLine p).head? = some c → isPySpace c = false := by
  obtain ⟨hk, _⟩ := wfPair_parts p h
  obtain ⟨hne, _, _, hh⟩ := keyOk_facts p.1 hk
  intro c hc
  cases hp : p.1 with
  | nil => exact absurd hp hne
  | cons d t =>
    rw [renderLine, hp] at hc
    simp only [List.cons_append, List.head?_cons, Option.some.injEq] at hc
    subst hc
    exact hh d (by rw [hp]; rfl)

theorem renderLine_last (p : PyStr × YVal) (h : wfPair p = true) :
    ∀ c, (renderLine p).getLast? = some c → isPySpace c = false := by
  obtain ⟨_, hv⟩ := wfPair_parts p h
  obtain ⟨hne, _, _, _, hl⟩ := parseScalar_facts _ _ hv
  intro c hc
  rw [renderLine, List.getLast?_append] at hc
  have h2 : (':' :: ' ' :: renderVal p.2).getLast? =
      (renderVal p.2).getLast? := by
    cases hr : renderVal p.2 with
    | nil => exact absurd hr hne
    | cons d t => simp [List.getLast?_cons_cons]
  rw [h2] at hc
  cases hg : (renderVal p.2).getLast? with
  | none =>
    rw [hg] at hc
    cases hr : renderVal p.2 with
    | nil => exact absurd hr hne
    | cons d t => rw [hr] at hg; simp [List.getLast?] at hg
  | some d =>
    rw [hg] at hc
    have h3 : some d = some c := hc
    rw [Option.some.injEq] at h3
    subst h3
    exact hl d hg

theorem renderLine_colon (p : PyStr × YVal) : ':' ∈ renderLine p := by
  simp [renderLine]

/-! ## C1: round-trip lemmas — line joining and splitting -/

theorem splitLines_no_nl (l : PyStr) (h : '\n' ∉ l) : splitLines l = [l] := by
  induction l with
  | nil => rfl
  | cons c t ih =>
    have hc : ¬(c = '\n') := by
      intro he
      exact h (he ▸ List.mem_cons_self c t)
    have ht : '\n' ∉ t := fun hm => h (List.mem_cons_of_mem c hm)
    rw [splitLines, if_neg hc, ih ht]

theorem splitLines_append_nl (l r : PyStr) (h : '\n' ∉ l) :
    splitLines (l ++ '\n' :: r) = l :: splitLines r := by
  induction l with
  | nil => simp [splitLines]
  | cons c t ih =>
    have hc : ¬(c = '\n') := by
      intro he
      exact h (he ▸ List.mem_cons_self c t)
    have ht : '\n' ∉ t := fun hm => h (List.mem_cons_of_mem c hm)
    rw [List.cons_append, splitLines, if_neg hc, ih ht]

theorem splitLines_joinSep (lines : List PyStr) (hne : lines ≠ [])
    (h : ∀ l ∈ lines, '\n' ∉ l) :
    splitLines (joinSep (pystr "\n") lines) = lines := by
  induction lines with
  | nil => exact absurd rfl hne
  | cons l ls ih =>
    cases ls with
    | nil => exact splitLines_no_nl l (h l (List.mem_cons_self l []))
    | cons m ms =>
      have hstep : joinSep (pystr "\n") (l :: m :: ms) =
          l ++ '\n' :: joinSep (pystr "\n") (m :: ms) := by
        rw [joinSep, show pystr "\n" = ['\n'] from rfl, List.append_assoc]
        rfl
      rw [hstep, splitLines_append_nl l _ (h l (List.mem_cons_self l _)),
        ih (by simp) (fun x hx => h x (List.mem_cons_of_mem l hx))]

theorem joinSep_ne_nil (sep : PyStr) (l : PyStr) (ls : List PyStr)
    (h : l ≠ []) : joinSep sep (l :: ls) ≠ [] := by
  cases ls with
  | nil => exact h
  | cons m ms =>
    rw [joinSep]
    cases l with
    | nil => exact absurd rfl h
    | cons c t => simp

theorem joinSep_head (sep : PyStr) (l : PyStr) (ls : List PyStr)
    (h : l ≠ []) : (joinSep sep (l :: ls)).head? = l.head? := by
  cases ls with
  | nil => rfl
  | cons m ms =>
    rw [joinSep]
    cases l with
    | nil => exact absurd rfl h
    | cons c t => simp

theorem joinSep_last (lines : List PyStr) (hne : lines ≠ [])
    (hn : ∀ x ∈ lines, x ≠ [])
    (h : ∀ x ∈ lines, ∀ c, x.getLast? = some c → isPySpace c = false) :
    ∀ c, (joinSep (pystr "\n") lines).getLast? = some c →
      isPySpace c = false := by
  induction lines with
  | nil => exact absurd rfl hne
  | cons l ls ih =>
    cases ls with
    | nil =>
      intro c hc
      exact h l (List.mem_cons_self l []) c hc
    | cons m ms =>
      intro c hc
      rw [joinSep, List.getLast?_append] at hc
      have hJ := joinSep_ne_nil (pystr "\n") m ms
        (hn m (List.mem_cons_of_mem l (List.mem_cons_self m ms)))
      cases hg : (joinSep (pystr "\n") (m :: ms)).getLast? with
      | none =>
        exfalso
        cases hj : joinSep (pystr "\n") (m :: ms) with
        | nil => exact hJ hj
        | cons d t => rw [hj] at hg; simp [List.getLast?] at hg
      | some d =>
        rw [hg] at hc
        have h3 : some d = some c := hc
        rw [Option.some.injEq] at h3
        subst h3
        exact ih (by simp) (fun x hx => hn x (List.mem_cons_of_mem l hx))
          (fun x hx => h x (List.mem_cons_of_mem l hx)) d hg

theorem joinSep_colon (l : PyStr) (ls : List PyStr) (h : ':' ∈ l) :
    ':' ∈ joinSep (pystr "\n") (l :: ls) := by
  cases ls with
  | nil => exact h
  | cons m ms =>
    rw [joinSep]
    exact List.mem_append.mpr (Or.inl (List.mem_append.mpr (Or.inl h)))

theorem nullTok_no_colon (s : PyStr) (h : ':' ∈ s) : nullTok s = false := by
  cases hn : nullTok s with
  | false => rfl
  | true =>
    exfalso
    simp only [nullTok, Bool.or_eq_true, decide_eq_true_eq] at hn
    rcases hn with ((h1 | h1) | h1) | h1 <;> subst h1 <;>
      revert h <;> decide

/-! ## C1: round-trip lemmas — locating the closing marker -/


theorem firstOcc_cons_ne (c : Char) (t : PyStr) (h : ¬(c = '-')) :
    firstOcc tripleDash (c :: t) = (firstOcc tripleDash t).map (· + 1) := by
  rw [firstOcc, if_neg]
  simp [startsWithPy, tripleDash, h]

theorem firstOcc_concat_ne (A : PyStr) (c : Char)
    (hO : firstOcc tripleDash A = none) (hc : ¬(c = '-')) :
    firstOcc tripleDash (A ++ [c]) = none := by
  induction A with
  | nil =>
    simp [firstOcc, startsWithPy, tripleDash, hc]
  | cons a t ih =>
    rw [firstOcc] at hO
    by_cases hS : startsWithPy (a :: t) tripleDash = true
    · rw [if_pos hS] at hO
      exact absurd hO (by simp)
    · rw [if_neg hS] at hO
      have hO2 : firstOcc tripleDash t = none := by
        cases hx : firstOcc tripleDash t with
        | none => rfl
        | some k =>
          rw [hx] at hO
          exact absurd hO (by simp)
      have hS2 : ¬(startsWithPy (a :: (t ++ [c])) tripleDash = true) := by
        intro hb
        cases t with
        | nil =>
          revert hb
          simp [startsWithPy, tripleDash, hc]
        | cons x t2 =>
          cases t2 with
          | nil =>
            revert hb
            simp [startsWithPy, tripleDash, hc]
          | cons y t3 =>
            apply hS
            simp only [List.cons_append, startsWithPy, tripleDash,
              Bool.and_eq_true, decide_eq_true_eq] at hb ⊢
            exact hb
      rw [List.cons_append, firstOcc, if_neg hS2, ih hO2]
      rfl

theorem firstOcc_marker (A B : PyStr)
    (hO : firstOcc tripleDash A = none)
    (hL : A.getLast? ≠ some '-') :
    firstOcc tripleDash (A ++ '-' :: '-' :: '-' :: B) = some A.length := by
  induction A with
  | nil =>
    simp [firstOcc, startsWithPy, tripleDash]
  | cons a t ih =>
    rw [firstOcc] at hO
    by_cases hS : startsWithPy (a :: t) tripleDash = true
    · rw [if_pos hS] at hO
      exact absurd hO (by simp)
    · rw [if_neg hS] at hO
      have hO2 : firstOcc tripleDash t = none := by
        cases hx : firstOcc tripleDash t with
        | none => rfl
        | some k =>
          rw [hx] at hO
          exact absurd hO (by simp)
      have hL2 : t.getLast? ≠ some '-' := by
        cases t with
        | nil => simp
        | cons x t2 =>
          rw [List.getLast?_cons_cons] at hL
          exact hL
      have hS2 : ¬(startsWithPy (a :: (t ++ '-' :: '-' :: '-' :: B))
          tripleDash = true) := by
        intro hb
        cases t with
        | nil =>
          simp only [List.nil_append, startsWithPy, tripleDash,
            Bool.and_eq_true, decide_eq_true_eq] at hb
          exact hL (by simp [hb.1])
        | cons x t2 =>
          cases t2 with
          | nil =>
            simp only [List.cons_append, List.nil_append, startsWithPy,
              tripleDash, Bool.and_eq_true, decide_eq_true_eq] at hb
            exact hL (by simp [hb.2.1])
          | cons y t3 =>
            apply hS
            simp only [List.cons_append, startsWithPy, tripleDash,
              Bool.and_eq_true, decide_eq_true_eq] at hb ⊢
            exact hb
      rw [List.cons_append, firstOcc, if_neg hS2, ih hO2 hL2]
      rfl

/-! ## C1: the round-trip theorem -/


theorem drop_append_len {a : Type} (l r : List a) (n : Nat) :
    (l ++ r).drop (l.length + n) = r.drop n := by
  induction l with
  | nil => simp
  | cons c t ih =>
    rw [List.cons_append, List.length_cons, Nat.succ_add,
      List.drop_succ_cons, ih]

/-- C1: for every raw text built by concatenating a valid frontmatter
header block (opening three-dash marker line, well-formed YAML key/value
lines containing no nested marker, closing three-dash marker) and a body,
`parse_frontmatter` returns a header containing exactly that block's keys
and values, and a body equal to the original body with leading/trailing
whitespace trimmed. -/
theorem frontmatter_roundtrip (kvs : List (PyStr × YVal)) (body : PyStr)
    (hwf : wfHdr kvs = true)
    (hno : firstOcc tripleDash (renderHdr kvs) = none) :
    parse_frontmatter (mkDoc kvs body) =
      (some (Yaml.ymap kvs), pyStrip body) := by
  simp only [wfHdr, Bool.and_eq_true] at hwf
  obtain ⟨⟨hne0, hall⟩, hdup⟩ := hwf
  have hne : kvs ≠ [] := by simpa using hne0
  have hallp : ∀ p ∈ kvs, wfPair p = true := List.all_eq_true.mp hall
  cases kvs with
  | nil => exact absurd rfl hne
  | cons p0 rest =>
    set H := renderHdr (p0 :: rest) with hHdef
    have hp0 : wfPair p0 = true := hallp p0 (List.mem_cons_self p0 rest)
    have hlines_ne : ∀ x ∈ (p0 :: rest).map renderLine, x ≠ [] := by
      intro x hx
      obtain ⟨p, hp, hpe⟩ := List.mem_map.mp hx
      exact hpe ▸ renderLine_ne_nil p (hallp p hp)
    have hlines_nl : ∀ x ∈ (p0 :: rest).map renderLine, '\n' ∉ x := by
      intro x hx
      obtain ⟨p, hp, hpe⟩ := List.mem_map.mp hx
      exact hpe ▸ renderLine_no_nl p (hallp p hp)
    have hlines_last : ∀ x ∈ (p0 :: rest).map renderLine,
        ∀ c, x.getLast? = some c → isPySpace c = false := by
      intro x hx
      obtain ⟨p, hp, hpe⟩ := List.mem_map.mp hx
      exact hpe ▸ renderLine_last p (hallp p hp)
    have hHjoin : H = joinSep (pystr "\n")
        (renderLine p0 :: rest.map renderLine) := by
      rw [hHdef, renderHdr, List.map_cons]
    have hH_ne : H ≠ [] := by
      rw [hHjoin]
      exact joinSep_ne_nil _ _ _ (renderLine_ne_nil p0 hp0)
    have hH_head : ∀ c, H.head? = some c → isPySpace c = false := by
      intro c hc
      rw [hHjoin, joinSep_head _ _ _ (renderLine_ne_nil p0 hp0)] at hc
      exact renderLine_head p0 hp0 c hc
    have hH_last : ∀ c, H.getLast? = some c → isPySpace c = false := by
      rw [hHjoin]
      exact joinSep_last _ (by simp)
        (by rw [← List.map_cons]; exact hlines_ne)
        (by rw [← List.map_cons]; exact hlines_last)
    have hH_colon : ':' ∈ H := by
      rw [hHjoin]
      exact joinSep_colon _ _ (renderLine_colon p0)
    have hsplit : splitLines H = (p0 :: rest).map renderLine := by
      rw [hHjoin, ← List.map_cons]
      exact splitLines_joinSep _ (by simp) hlines_nl
    have hmap : mapLines ((p0 :: rest).map renderLine) = some (p0 :: rest) :=
      mapLines_render (p0 :: rest) hall
    have hyaml : yamlSafeLoad H = .ok (some (Yaml.ymap (p0 :: rest))) := by
      rw [yamlSafeLoad, if_neg hH_ne,
        if_neg (by rw [nullTok_no_colon H hH_colon]; simp :
          ¬(nullTok H = true))]
      simp only [hsplit, hmap, hdup, if_true]
    have hD : mkDoc (p0 :: rest) body =
        '-' :: '-' :: '-' :: '\n' ::
          (H ++ ('\n' :: '-' :: '-' :: '-' :: '\n' :: body)) := by
      rw [mkDoc, ← hHdef, show pystr "---\n" = ['-', '-', '-', '\n'] from rfl,
        show pystr "\n---\n" = ['\n', '-', '-', '-', '\n'] from rfl]
      simp [List.append_assoc]
    have hdrop3 : (('-' : Char) :: '-' :: '-' :: '\n' ::
        (H ++ ('\n' :: '-' :: '-' :: '-' :: '\n' :: body))).drop 3 =
        (('\n' :: H) ++ ['\n']) ++ ('-' :: '-' :: '-' :: ('\n' :: body)) := by
      simp [List.append_assoc]
    have hA_occ : firstOcc tripleDash (('\n' :: H) ++ ['\n']) = none := by
      have h1 : firstOcc tripleDash (H ++ ['\n']) = none :=
        firstOcc_concat_ne H '\n' hno (by decide)
      rw [show (('\n' :: H) ++ ['\n']) = '\n' :: (H ++ ['\n']) from by simp,
        firstOcc_cons_ne '\n' _ (by decide), h1]
      rfl
    have hA_last : (('\n' :: H) ++ ['\n']).getLast? ≠ some '-' := by
      rw [List.getLast?_concat]
      simp
    have hocc := firstOcc_marker (('\n' :: H) ++ ['\n']) ('\n' :: body)
      hA_occ hA_last
    have hfind : findFrom (('-' : Char) :: '-' :: '-' :: '\n' ::
        (H ++ ('\n' :: '-' :: '-' :: '-' :: '\n' :: body))) tripleDash 3 =
        some (H.length + 5) := by
      rw [findFrom, hdrop3, hocc]
      rw [show Option.map (· + 3) (some ((('\n' :: H) ++ ['\n']).length)) =
        some ((('\n' :: H) ++ ['\n']).length + 3) from rfl,
        Option.some.injEq]
      simp only [List.length_append, List.length_cons, List.length_nil]
    have hstart : startsWithPy (('-' : Char) :: '-' :: '-' :: '\n' ::
        (H ++ ('\n' :: '-' :: '-' :: '-' :: '\n' :: body))) tripleDash
        = true := by
      simp [startsWithPy, tripleDash]
    have hfs : pyStrip (pySlice (('-' : Char) :: '-' :: '-' :: '\n' ::
        (H ++ ('\n' :: '-' :: '-' :: '-' :: '\n' :: body))) 3
        (H.length + 5)) = H := by
      rw [pySlice, hdrop3]
      rw [show H.length + 5 - 3 = (('\n' :: H) ++ ['\n']).length from by
        simp only [List.length_append, List.length_cons, List.length_nil]
        omega]
      rw [List.take_left]
      rw [show (('\n' :: H) ++ ['\n']) = '\n' :: (H ++ ['\n']) from by simp]
      exact pyStrip_wrapped H hH_ne hH_head hH_last
    have hbody : pyStrip (pyDrop (('-' : Char) :: '-' :: '-' :: '\n' ::
        (H ++ ('\n' :: '-' :: '-' :: '-' :: '\n' :: body)))
        (H.length + 5 + 3)) = pyStrip body := by
      rw [pyDrop, show H.length + 5 + 3 = 4 + (H.length + 4) from by omega,
        ← List.drop_drop]
      rw [show (('-' : Char) :: '-' :: '-' :: '\n' ::
        (H ++ ('\n' :: '-' :: '-' :: '-' :: '\n' :: body))).drop 4 =
        H ++ ('\n' :: '-' :: '-' :: '-' :: '\n' :: body) from rfl]
      rw [show H.length + 4 = H.length + 4 from rfl, drop_append_len]
      rw [show (('\n' : Char) :: '-' :: '-' :: '-' :: '\n' :: body).drop 4 =
        '\n' :: body from rfl]
      exact pyStrip_cons_space '\n' body (by decide)
    rw [hD, parse_frontmatter]
    rw [if_neg (by rw [hstart]; simp : ¬(startsWithPy _ tripleDash = false))]
    rw [hfind]
    simp only [hfs, hyaml, hbody]

theorem frontmatter_roundtrip_witness :
    (wfHdr [(pystr "description", YVal.ystr (pystr "x")),
            (pystr "alwaysApply", YVal.ybool true)] = true) ∧
    (firstOcc tripleDash
      (renderHdr [(pystr "description", YVal.ystr (pystr "x")),
                  (pystr "alwaysApply", YVal.ybool true)]) = none) ∧
    (mkDoc [(pystr "description", YVal.ystr (pystr "x")),
            (pystr "alwaysApply", YVal.ybool true)] (pystr "BODY") =
      pystr "---\ndescription: x\nalwaysApply: true\n---\nBODY") ∧
    parse_frontmatter
        (mkDoc [(pystr "description", YVal.ystr (pystr "x")),
                (pystr "alwaysApply", YVal.ybool true)] (pystr "BODY")) =
      (some (Yaml.ymap [(pystr "description", YVal.ystr (pystr "x")),
                        (pystr "alwaysApply", YVal.ybool true)]),
       pyStrip (pystr "BODY")) :=
  ⟨by decide, by decide, by decide,
   frontmatter_roundtrip
     [(pystr "description", YVal.ystr (pystr "x")),
      (pystr "alwaysApply", YVal.ybool true)]
     (pystr "BODY") (by decide) (by decide)⟩
